import Mathlib

/-!
Verification of the Kalpana core authority daemon (kalpana-core/src/main.py
and kalpana-core/src/ipc_client.py).

The Python source is shallowly embedded: each class method that the claims
touch becomes a Lean definition over explicit state, Python dictionaries
with `get`-and-default access become structures with `Option` fields, and
Python string containment (`needle in haystack`) becomes list-infix of the
character lists.  Machine-level concerns (sockets, asyncio scheduling, the
filesystem) are out of the embedding; the audit file write is modelled by a
boolean "the file is writable" parameter and an explicit propagated-error
component.
-/

/-- `ActionType` enum of main.py. -/
inductive ActionType where
  | process_start
  | process_kill
  | file_read
  | file_write
  | file_delete
  | network_connect
  | network_listen
  | system_command
  | privilege_escalate
  | package_install
  | service_control
deriving DecidableEq, Repr

/-- `Decision` enum of main.py. -/
inductive Decision where
  | allow
  | deny
  | audit
  | sandbox
deriving DecidableEq, Repr

/-- `.value` of the `Decision` enum members. -/
def Decision.value : Decision → String
  | .allow => "allow"
  | .deny => "deny"
  | .audit => "audit"
  | .sandbox => "sandbox"

/-- `ActionRequest` dataclass.  `parameters` (a `Dict[str, Any]`) is modelled
as an association list; `timestamp` (a `datetime`) as a string. -/
structure ActionRequest where
  id : String
  action_type : ActionType
  requestor_pid : Int
  requestor_uid : Int
  requestor_name : String
  target : String
  parameters : List (String × String)
  timestamp : String
deriving DecidableEq, Repr

/-- `ActionResponse` dataclass (`constraints` defaults to empty,
`expires_at` to `None`; `evaluate` never sets either). -/
structure ActionResponse where
  request_id : String
  decision : Decision
  reason : String
  constraints : List (String × String)
  expires_at : Option String
deriving DecidableEq, Repr

/-- `AuditEntry` dataclass. -/
structure AuditEntry where
  timestamp : String
  request : ActionRequest
  response : ActionResponse
  execution_result : Option String
deriving DecidableEq, Repr

/-- `PolicyEngine.trusted_processes` (a set; order immaterial, only
membership is used). -/
def trusted_processes : List String := ["kalpana-shell", "kalpana-ui", "systemd"]

/-- `PolicyEngine.blocked_paths`. -/
def blocked_paths : List String := ["/boot", "/kalpana/core"]

/-- Python substring containment `needle in haystack`, as list-infix of the
character lists. -/
def pyIn (needle haystack : String) : Bool :=
  decide (needle.data <:+: haystack.data)

/-- `PolicyEngine.evaluate` (main.py lines 140-181): the five-rule
first-match chain, with the literal reason strings of the source. -/
def evaluate (request : ActionRequest) : ActionResponse :=
  if (request.action_type == ActionType.file_write
        || request.action_type == ActionType.file_delete)
      && blocked_paths.any (fun blocked => pyIn blocked request.target) then
    { request_id := request.id
      decision := Decision.deny
      reason := "Protected system path - modification forbidden"
      constraints := []
      expires_at := none }
  else if trusted_processes.contains request.requestor_name then
    { request_id := request.id
      decision := Decision.allow
      reason := "Trusted process: " ++ request.requestor_name
      constraints := []
      expires_at := none }
  else if request.action_type == ActionType.network_connect
      || request.action_type == ActionType.network_listen then
    { request_id := request.id
      decision := Decision.audit
      reason := "Network action logged for review"
      constraints := []
      expires_at := none }
  else if request.action_type == ActionType.privilege_escalate then
    { request_id := request.id
      decision := Decision.deny
      reason := "Privilege escalation requires Kalpana approval"
      constraints := []
      expires_at := none }
  else
    { request_id := request.id
      decision := Decision.sandbox
      reason := "Unknown action sandboxed by default"
      constraints := []
      expires_at := none }

/-- The request is a file write or a file delete. -/
def WriteOrDelete (r : ActionRequest) : Prop :=
  r.action_type = ActionType.file_write ∨ r.action_type = ActionType.file_delete

/-- The target matches (contains) an entry of the protected-path set. -/
def TargetBlocked (r : ActionRequest) : Prop :=
  ∃ b ∈ blocked_paths, b.data <:+: r.target.data

/-- The requester's process name is in the trusted-process set. -/
def TrustedRequestor (r : ActionRequest) : Prop :=
  r.requestor_name ∈ trusted_processes

/-- The request is a network connect or listen. -/
def NetworkAction (r : ActionRequest) : Prop :=
  r.action_type = ActionType.network_connect ∨ r.action_type = ActionType.network_listen

instance (r : ActionRequest) : Decidable (WriteOrDelete r) := by
  unfold WriteOrDelete; infer_instance

instance (r : ActionRequest) : Decidable (TargetBlocked r) := by
  unfold TargetBlocked; infer_instance

instance (r : ActionRequest) : Decidable (TrustedRequestor r) := by
  unfold TrustedRequestor; infer_instance

instance (r : ActionRequest) : Decidable (NetworkAction r) := by
  unfold NetworkAction; infer_instance

/-- A concrete well-formed request for witnesses: an untrusted process
asking for a file write on a protected path. -/
def reqProtectedWrite : ActionRequest :=
  { id := "REQ-20260101000000-000001"
    action_type := ActionType.file_write
    requestor_pid := 4242
    requestor_uid := 1000
    requestor_name := "unknown-script"
    target := "/kalpana/core/config"
    parameters := []
    timestamp := "2026-01-01T00:00:00" }

/-- A trusted process writing to a protected path, for the C2 witness. -/
def reqTrustedProtectedWrite : ActionRequest :=
  { id := "REQ-20260101000000-000002"
    action_type := ActionType.file_delete
    requestor_pid := 77
    requestor_uid := 0
    requestor_name := "kalpana-shell"
    target := "/boot/vmlinuz"
    parameters := []
    timestamp := "2026-01-01T00:00:01" }

/-- A trusted process reading a protected path: the action kind is neither
file write nor file delete, so rule 1 does not fire and rule 2 allows it. -/
def reqTrustedProtectedRead : ActionRequest :=
  { id := "REQ-20260101000000-000003"
    action_type := ActionType.file_read
    requestor_pid := 78
    requestor_uid := 0
    requestor_name := "kalpana-shell"
    target := "/boot/grub/grub.cfg"
    parameters := []
    timestamp := "2026-01-01T00:00:02" }

/-- Big-endian decimal digits, with explicit fuel so the kernel can
evaluate it. -/
def decDigits (fuel n : Nat) : List Nat :=
  match fuel with
  | 0 => []
  | f + 1 => if n < 10 then [n] else decDigits f (n / 10) ++ [n % 10]

/-- Big-endian decimal digits of `n` (the digits of Python's `str(n)`). -/
def decimal (n : Nat) : List Nat := decDigits (n + 1) n

/-- Value of a big-endian digit list. -/
def valBE : List Nat → Nat
  | [] => 0
  | d :: ds => d * 10 ^ ds.length + valBE ds

/-- The digit list of `"%06d" % n`: the decimal digits left-padded with
zeros to at least six positions. -/
def zeroPadDigits (n : Nat) : List Nat :=
  List.replicate (6 - (decimal n).length) 0 ++ decimal n

/-- The characters of `"%06d" % n`. -/
def format06d (n : Nat) : List Char :=
  List.replicate (6 - (decimal n).length) '0' ++ (decimal n).map Nat.digitChar

/-- The request identifier returned once the counter has been incremented
to `counter`: the literal prefix, the formatted timestamp, and the
zero-padded counter. -/
def generate_request_id (nowFmt : String) (counter : Nat) : String :=
  "REQ-" ++ nowFmt ++ "-" ++ String.mk (format06d counter)

/-- Python slice `l[-limit:]`: the last `limit` elements when `limit` is
positive; the whole list when `limit` is zero, because `l[-0:]` is `l[0:]`. -/
def sliceLast {α : Type} (limit : Nat) (l : List α) : List α :=
  if limit = 0 then l else l.drop (l.length - limit)

/-- The two filter passes of `AuditLogger.query`: sequential reassignment
of `results`, one pass per provided filter (conjunctive), omitted filters
filtering nothing. -/
def query_filtered (action_type : Option ActionType) (decision : Option Decision)
    (entries : List AuditEntry) : List AuditEntry :=
  let results := entries
  let results := match action_type with
    | some a => results.filter (fun e => e.request.action_type == a)
    | none => results
  match decision with
  | some d => results.filter (fun e => e.response.decision == d)
  | none => results

/-- `AuditLogger.query` (main.py lines 213-224): filter, then the Python
slice `results[-limit:]`. -/
def query (action_type : Option ActionType) (decision : Option Decision)
    (limit : Nat) (entries : List AuditEntry) : List AuditEntry :=
  sliceLast limit (query_filtered action_type decision entries)

/-- `AuditLogger.log` (main.py lines 196-211): appends to the in-memory
list, then opens the log file and writes one JSON line.  The filesystem is
outside the embedding, so the write outcome enters as `file_writable`; the
`Option String` component is the exception propagating to the caller when
`open`/`write` raises — `log` has no handler around them. -/
def log (file_writable : Bool) (entries : List AuditEntry) (entry : AuditEntry) :
    List AuditEntry × Option String :=
  (entries ++ [entry],
   if file_writable then none else some "OSError: audit log file not writable")

/-- A JSON request payload, restricted to the keys the daemon and the
client library touch.  A missing key is `none`. -/
structure IPCPayload where
  command : Option String
  cmd : Option String
  pid : Option Int
  uid : Option Int
  process : Option String
  args : List (String × String)
  limit : Option Nat
deriving DecidableEq, Repr

/-- The JSON object `handle_execute` returns: note `decision` carries the
enum's string value. -/
structure ExecuteResponse where
  request_id : String
  decision : String
  reason : String
  allowed : Bool
deriving DecidableEq, Repr

/-- The JSON object `get_status` returns. -/
structure StatusResponse where
  status : String
  uptime : String
  requests_processed : Nat
  mode : String
  policies_loaded : Nat
  audit_entries : Nat
deriving DecidableEq, Repr

/-- The JSON object `explain_last_decision` returns. -/
inductive ExplainResponse where
  | noDecision (explanation : String)
  | explained (request_id : String) (decision : String) (reason : String)
      (explanation : String)
deriving DecidableEq, Repr

/-- The response of `IPCServer.process_request`, one variant per command
plus the unknown-command error object. -/
inductive IPCResponse where
  | execute (r : ExecuteResponse)
  | status (s : StatusResponse)
  | auditEntries (entries : List AuditEntry)
  | explain (e : ExplainResponse)
  | error (msg : String)
deriving DecidableEq, Repr

/-- The mutable state of one `KalpanaCore` process: the request counter,
the audit logger's in-memory entries, the last decision, and the count of
policy documents loaded at startup (parsed but never consulted by
`evaluate`). -/
structure CoreState where
  request_counter : Nat
  entries : List AuditEntry
  last_decision : Option ActionResponse
  policies_loaded : Nat
deriving DecidableEq, Repr

/-- The `ActionRequest` that `KalpanaCore.handle_execute` (main.py lines
379-389) constructs: the id comes from the incremented counter, the
`target` is read from the payload's "command" key — the same key the
dispatcher switched on — and not from the client's "cmd" key.  `nowFmt` is
the strftime reading used inside the identifier, `now` the timestamp
field. -/
def built_request (counter : Nat) (nowFmt now : String) (p : IPCPayload) :
    ActionRequest :=
  { id := generate_request_id nowFmt (counter + 1)
    action_type := ActionType.system_command
    requestor_pid := p.pid.getD 0
    requestor_uid := p.uid.getD 0
    requestor_name := p.process.getD "unknown"
    target := p.command.getD ""
    parameters := p.args
    timestamp := now }

/-- The response dictionary built at the end of `handle_execute` (main.py
lines 402-407). -/
def execute_response (st : CoreState) (nowFmt now : String) (p : IPCPayload) :
    ExecuteResponse :=
  let response := evaluate (built_request st.request_counter nowFmt now p)
  { request_id := response.request_id
    decision := response.decision.value
    reason := response.reason
    allowed := response.decision == Decision.allow
        || response.decision == Decision.audit }

/-- The `AuditEntry` that `handle_execute` logs (main.py lines 396-400),
with `execution_result` left empty. -/
def executed_entry (st : CoreState) (nowFmt now : String) (p : IPCPayload) :
    AuditEntry :=
  { timestamp := now
    request := built_request st.request_counter nowFmt now p
    response := evaluate (built_request st.request_counter nowFmt now p)
    execution_result := none }

/-- `KalpanaCore.handle_execute` (main.py lines 379-407): generate the id
(counter increment), build the request, evaluate, store the last decision,
append the audit entry, return the response object. -/
def handle_execute (st : CoreState) (nowFmt now : String) (p : IPCPayload) :
    IPCResponse × CoreState :=
  (IPCResponse.execute (execute_response st nowFmt now p),
   { request_counter := st.request_counter + 1
     entries := st.entries ++ [executed_entry st nowFmt now p]
     last_decision := some (evaluate (built_request st.request_counter nowFmt now p))
     policies_loaded := st.policies_loaded })

/-- `KalpanaCore.get_status` (main.py lines 409-418); uptime is the
literal "N/A" and the development mode string is modelled. -/
def get_status (st : CoreState) : StatusResponse :=
  { status := "online"
    uptime := "N/A"
    requests_processed := st.request_counter
    mode := "development"
    policies_loaded := st.policies_loaded
    audit_entries := st.entries.length }

/-- `KalpanaCore.explain_last_decision` (main.py lines 420-430). -/
def explain_last_decision (st : CoreState) : ExplainResponse :=
  match st.last_decision with
  | none => ExplainResponse.noDecision "No decisions made yet."
  | some resp => ExplainResponse.explained resp.request_id resp.decision.value
      resp.reason
      ("The action was " ++ resp.decision.value ++ " because: " ++ resp.reason)

/-- `IPCServer.process_request` (main.py lines 285-306): dispatch on the
payload's "command" field; the audit branch calls `query(limit=50)` and
never reads the payload's own limit field. -/
def process_request (st : CoreState) (nowFmt now : String) (p : IPCPayload) :
    IPCResponse × CoreState :=
  match p.command with
  | some "execute" => handle_execute st nowFmt now p
  | some "status" => (IPCResponse.status (get_status st), st)
  | some "audit" => (IPCResponse.auditEntries (query none none 50 st.entries), st)
  | some "explain" => (IPCResponse.explain (explain_last_decision st), st)
  | c => (IPCResponse.error ("Unknown command: " ++ c.getD "None"), st)

/-- Run a sequence of IPC requests, each tagged with its two clock
readings, threading the state. -/
def run_requests (st : CoreState) : List (String × String × IPCPayload) → CoreState
  | [] => st
  | c :: rest => run_requests (process_request st c.1 c.2.1 c.2.2).2 rest

/-- The payload `KalpanaIPCClient.execute` sends (ipc_client.py lines
66-75): the user's command string travels under the "cmd" key, while the
"command" key carries the protocol verb "execute". -/
def client_execute_payload (cmd : String) (args : List (String × String))
    (pid uid : Int) : IPCPayload :=
  { command := some "execute"
    cmd := some cmd
    args := args
    pid := some pid
    uid := some uid
    process := some "kalpana-shell"
    limit := none }

/-- A concrete starting state for witnesses. -/
def st0 : CoreState :=
  { request_counter := 0
    entries := []
    last_decision := none
    policies_loaded := 1 }

/-- A concrete client payload for witnesses. -/
def payload_ls : IPCPayload := client_execute_payload "ls -la" [] 100 1000

/-- A concrete audit entry for counterexamples and witnesses. -/
def entry0 : AuditEntry :=
  { timestamp := "2026-01-01T00:00:03"
    request := reqProtectedWrite
    response := evaluate reqProtectedWrite
    execution_result := none }

/-- A payload asking the audit command for a single entry. -/
def audit_payload_limit1 : IPCPayload :=
  { command := some "audit"
    cmd := none
    pid := none
    uid := none
    process := none
    args := []
    limit := some 1 }

/-- A two-entry state for the C10 counterexample. -/
def st2 : CoreState :=
  { request_counter := 2
    entries := [entry0, entry0]
    last_decision := none
    policies_loaded := 1 }

/-- The entries of an audit response (empty for the other variants). -/
def audit_entries_of : IPCResponse → List AuditEntry
  | IPCResponse.auditEntries es => es
  | _ => []

theorem rule1_guard_iff (r : ActionRequest) :
    ((r.action_type == ActionType.file_write
        || r.action_type == ActionType.file_delete)
      && blocked_paths.any (fun blocked => pyIn blocked r.target)) = true
      ↔ WriteOrDelete r ∧ TargetBlocked r := by
  simp [WriteOrDelete, TargetBlocked, pyIn]

theorem rule2_guard_iff (r : ActionRequest) :
    trusted_processes.contains r.requestor_name = true ↔ TrustedRequestor r := by
  simp [TrustedRequestor, List.contains, List.elem_iff]

theorem rule3_guard_iff (r : ActionRequest) :
    (r.action_type == ActionType.network_connect
      || r.action_type == ActionType.network_listen) = true ↔ NetworkAction r := by
  simp [NetworkAction]

theorem rule4_guard_iff (r : ActionRequest) :
    (r.action_type == ActionType.privilege_escalate) = true
      ↔ r.action_type = ActionType.privilege_escalate := by
  simp

/-- Claim C1: `evaluate` is total (it is a function) and decides every
request by first match over the five ordered rules: protected-path DENY,
trusted-process ALLOW, network AUDIT, privilege-escalation DENY, default
SANDBOX.  Each later rule fires only under the negation of all earlier
guards, so later rules are unreachable once an earlier one matches.  The
reason strings are the literals of the source (the spec's quoted reasons
paraphrase them; "authority approval" is the source's "Kalpana approval"). -/
theorem claim_C1_evaluate_first_match (r : ActionRequest) :
    (WriteOrDelete r ∧ TargetBlocked r →
      evaluate r =
        { request_id := r.id, decision := Decision.deny,
          reason := "Protected system path - modification forbidden",
          constraints := [], expires_at := none })
    ∧ (¬(WriteOrDelete r ∧ TargetBlocked r) → TrustedRequestor r →
      evaluate r =
        { request_id := r.id, decision := Decision.allow,
          reason := "Trusted process: " ++ r.requestor_name,
          constraints := [], expires_at := none })
    ∧ (¬(WriteOrDelete r ∧ TargetBlocked r) → ¬TrustedRequestor r →
        NetworkAction r →
      evaluate r =
        { request_id := r.id, decision := Decision.audit,
          reason := "Network action logged for review",
          constraints := [], expires_at := none })
    ∧ (¬(WriteOrDelete r ∧ TargetBlocked r) → ¬TrustedRequestor r →
        ¬NetworkAction r → r.action_type = ActionType.privilege_escalate →
      evaluate r =
        { request_id := r.id, decision := Decision.deny,
          reason := "Privilege escalation requires Kalpana approval",
          constraints := [], expires_at := none })
    ∧ (¬(WriteOrDelete r ∧ TargetBlocked r) → ¬TrustedRequestor r →
        ¬NetworkAction r → r.action_type ≠ ActionType.privilege_escalate →
      evaluate r =
        { request_id := r.id, decision := Decision.sandbox,
          reason := "Unknown action sandboxed by default",
          constraints := [], expires_at := none }) := by
  refine ⟨?_, ?_, ?_, ?_, ?_⟩
  · intro h1
    unfold evaluate
    rw [if_pos ((rule1_guard_iff r).mpr h1)]
  · intro h1 h2
    unfold evaluate
    rw [if_neg (fun hb => h1 ((rule1_guard_iff r).mp hb)),
      if_pos ((rule2_guard_iff r).mpr h2)]
  · intro h1 h2 h3
    unfold evaluate
    rw [if_neg (fun hb => h1 ((rule1_guard_iff r).mp hb)),
      if_neg (fun hb => h2 ((rule2_guard_iff r).mp hb)),
      if_pos ((rule3_guard_iff r).mpr h3)]
  · intro h1 h2 h3 h4
    unfold evaluate
    rw [if_neg (fun hb => h1 ((rule1_guard_iff r).mp hb)),
      if_neg (fun hb => h2 ((rule2_guard_iff r).mp hb)),
      if_neg (fun hb => h3 ((rule3_guard_iff r).mp hb)),
      if_pos ((rule4_guard_iff r).mpr h4)]
  · intro h1 h2 h3 h4
    unfold evaluate
    rw [if_neg (fun hb => h1 ((rule1_guard_iff r).mp hb)),
      if_neg (fun hb => h2 ((rule2_guard_iff r).mp hb)),
      if_neg (fun hb => h3 ((rule3_guard_iff r).mp hb)),
      if_neg (fun hb => h4 ((rule4_guard_iff r).mp hb))]

/-- Witness for claim C1: the first rule fires on a concrete protected-path
write and `evaluate` returns the protected-path DENY response. -/
theorem claim_C1_evaluate_first_match_witness :
    (WriteOrDelete reqProtectedWrite ∧ TargetBlocked reqProtectedWrite)
    ∧ evaluate reqProtectedWrite =
        { request_id := reqProtectedWrite.id,
          decision := Decision.deny,
          reason := "Protected system path - modification forbidden",
          constraints := [], expires_at := none } :=
  ⟨by decide, (claim_C1_evaluate_first_match reqProtectedWrite).1 (by decide)⟩

/-- Claim C2: a file write or delete on a protected target is denied even
when the requester is trusted: the protected-path rule outranks the
trusted-process rule. -/
theorem claim_C2_protected_outranks_trusted (r : ActionRequest)
    (hk : WriteOrDelete r) (ht : TargetBlocked r)
    (_htr : TrustedRequestor r) :
    (evaluate r).decision = Decision.deny := by
  unfold evaluate
  rw [if_pos ((rule1_guard_iff r).mpr ⟨hk, ht⟩)]

/-- Witness for claim C2 at a concrete trusted requester and protected
target. -/
theorem claim_C2_protected_outranks_trusted_witness :
    (WriteOrDelete reqTrustedProtectedWrite
      ∧ TargetBlocked reqTrustedProtectedWrite
      ∧ TrustedRequestor reqTrustedProtectedWrite)
    ∧ (evaluate reqTrustedProtectedWrite).decision = Decision.deny :=
  ⟨by decide,
    claim_C2_protected_outranks_trusted reqTrustedProtectedWrite
      (by decide) (by decide) (by decide)⟩

/-- Counterexample to claim C3 as stated: a request whose target matches a
protected path does resolve to ALLOW when the action kind is a file read
and the requester is trusted, because the protected-path rule only guards
file writes and file deletes. -/
theorem claim_C3_counterexample :
    TargetBlocked reqTrustedProtectedRead
    ∧ (evaluate reqTrustedProtectedRead).decision = Decision.allow := by
  decide

/-- Claim C3 as amended: for file-write and file-delete requests a
protected target never resolves to ALLOW, regardless of requester trust. -/
theorem claim_C3_amended_no_allow_on_protected (r : ActionRequest)
    (hk : WriteOrDelete r) (ht : TargetBlocked r) :
    (evaluate r).decision ≠ Decision.allow := by
  unfold evaluate
  rw [if_pos ((rule1_guard_iff r).mpr ⟨hk, ht⟩)]
  simp

/-- Witness for the amended claim C3 at a concrete protected-path write by
a trusted process. -/
theorem claim_C3_amended_no_allow_on_protected_witness :
    (WriteOrDelete reqTrustedProtectedWrite
      ∧ TargetBlocked reqTrustedProtectedWrite)
    ∧ (evaluate reqTrustedProtectedWrite).decision ≠ Decision.allow :=
  ⟨by decide,
    claim_C3_amended_no_allow_on_protected reqTrustedProtectedWrite
      (by decide) (by decide)⟩

theorem decDigits_succ (f n : Nat) :
    decDigits (f + 1) n = if n < 10 then [n] else decDigits f (n / 10) ++ [n % 10] :=
  rfl

theorem decDigits_congr : ∀ (n f f' : Nat), n < f → n < f' →
    decDigits f n = decDigits f' n := by
  intro n
  induction n using Nat.strong_induction_on with
  | _ n ih =>
    intro f f' hf hf'
    obtain ⟨a, rfl⟩ : ∃ a, f = a + 1 := ⟨f - 1, by omega⟩
    obtain ⟨a', rfl⟩ : ∃ a', f' = a' + 1 := ⟨f' - 1, by omega⟩
    rw [decDigits_succ, decDigits_succ]
    by_cases h : n < 10
    · simp [h]
    · have hd : n / 10 < n := Nat.div_lt_self (by omega) (by omega)
      rw [if_neg h, if_neg h, ih (n / 10) hd a a' (by omega) (by omega)]

theorem decimal_of_lt {n : Nat} (h : n < 10) : decimal n = [n] := by
  show decDigits (n + 1) n = [n]
  rw [decDigits_succ, if_pos h]

theorem decimal_of_ge {n : Nat} (h : 10 ≤ n) :
    decimal n = decimal (n / 10) ++ [n % 10] := by
  have hd : n / 10 < n := Nat.div_lt_self (by omega) (by omega)
  show decDigits (n + 1) n = decDigits (n / 10 + 1) (n / 10) ++ [n % 10]
  rw [decDigits_succ, if_neg (by omega : ¬ n < 10),
    decDigits_congr (n / 10) n (n / 10 + 1) hd (by omega)]

theorem valBE_append_single (ds : List Nat) (d : Nat) :
    valBE (ds ++ [d]) = 10 * valBE ds + d := by
  induction ds with
  | nil => simp [valBE]
  | cons a ds ih =>
    simp only [List.cons_append, valBE, ih, List.append_eq, List.length_append,
      List.length_cons, List.length_nil]
    ring

theorem valBE_decimal : ∀ n, valBE (decimal n) = n := by
  intro n
  induction n using Nat.strong_induction_on with
  | _ n ih =>
    by_cases h : n < 10
    · rw [decimal_of_lt h]; simp [valBE]
    · have hd : n / 10 < n := Nat.div_lt_self (by omega) (by omega)
      rw [decimal_of_ge (by omega), valBE_append_single, ih (n / 10) hd]
      omega

theorem decimal_digits_lt : ∀ n, ∀ d ∈ decimal n, d < 10 := by
  intro n
  induction n using Nat.strong_induction_on with
  | _ n ih =>
    by_cases h : n < 10
    · rw [decimal_of_lt h]; simpa using h
    · have hd : n / 10 < n := Nat.div_lt_self (by omega) (by omega)
      rw [decimal_of_ge (by omega)]
      intro d hdm
      rcases List.mem_append.mp hdm with hmem | hmem
      · exact ih (n / 10) hd d hmem
      · simp at hmem
        omega

theorem decimal_length_le : ∀ n k, 1 ≤ k → n < 10 ^ k →
    (decimal n).length ≤ k := by
  intro n
  induction n using Nat.strong_induction_on with
  | _ n ih =>
    intro k hk hn
    by_cases h : n < 10
    · rw [decimal_of_lt h]; simpa using hk
    · have hd : n / 10 < n := Nat.div_lt_self (by omega) (by omega)
      rw [decimal_of_ge (by omega)]
      simp only [List.length_append, List.length_cons, List.length_nil]
      obtain ⟨k', rfl⟩ : ∃ k', k = k' + 1 := ⟨k - 1, by omega⟩
      have hk' : 1 ≤ k' := by
        rcases Nat.eq_zero_or_pos k' with h0 | h1
        · subst h0; simp at hn; omega
        · exact h1
      have hn' : n / 10 < 10 ^ k' :=
        (Nat.div_lt_iff_lt_mul (by omega)).mpr (by rw [← pow_succ]; exact hn)
      have := ih (n / 10) hd k' hk' hn'
      omega

theorem valBE_lt_pow : ∀ l : List Nat, (∀ d ∈ l, d < 10) →
    valBE l < 10 ^ l.length := by
  intro l
  induction l with
  | nil => intro _; simp [valBE]
  | cons a l ih =>
    intro h
    have ha : a < 10 := h a (by simp)
    have hl : valBE l < 10 ^ l.length := ih (fun d hd => h d (by simp [hd]))
    simp only [valBE, List.length_cons]
    calc a * 10 ^ l.length + valBE l
        < a * 10 ^ l.length + 10 ^ l.length := by omega
      _ = (a + 1) * 10 ^ l.length := by ring
      _ ≤ 10 * 10 ^ l.length := Nat.mul_le_mul_right _ (by omega)
      _ = 10 ^ (l.length + 1) := by ring

theorem digitChar_lt {a b : Nat} (ha : a < 10) (hb : b < 10) (h : a < b) :
    Nat.digitChar a < Nat.digitChar b := by
  interval_cases a <;> interval_cases b <;> first | omega | decide

theorem digitChar_inj {a b : Nat} (ha : a < 10) (hb : b < 10)
    (h : Nat.digitChar a = Nat.digitChar b) : a = b := by
  rcases Nat.lt_trichotomy a b with hlt | heq | hgt
  · exact absurd h (digitChar_lt ha hb hlt).ne
  · exact heq
  · exact absurd h.symm (digitChar_lt hb ha hgt).ne

/-- Lexicographic order on the printed forms of equal-length digit lists
agrees with numeric order of their values. -/
theorem lex_digits_of_val_lt : ∀ l1 l2 : List Nat, l1.length = l2.length →
    (∀ d ∈ l1, d < 10) → (∀ d ∈ l2, d < 10) → valBE l1 < valBE l2 →
    List.Lex (· < ·) (l1.map Nat.digitChar) (l2.map Nat.digitChar) := by
  intro l1
  induction l1 with
  | nil =>
    intro l2 hlen _ _ hv
    rw [(List.length_eq_zero.mp hlen.symm)] at hv
    simp [valBE] at hv
  | cons a l1 ih =>
    intro l2 hlen h1 h2 hv
    cases l2 with
    | nil => simp at hlen
    | cons b l2 =>
      have ha : a < 10 := h1 a (by simp)
      have hb : b < 10 := h2 b (by simp)
      have hlen' : l1.length = l2.length := by simpa using hlen
      simp only [List.map_cons]
      rcases Nat.lt_trichotomy a b with hab | rfl | hba
      · exact List.Lex.rel (digitChar_lt ha hb hab)
      · have hv' : valBE l1 < valBE l2 := by
          simp only [valBE] at hv
          rw [hlen'] at hv
          omega
        exact List.Lex.cons
          (ih l2 hlen' (fun d hd => h1 d (by simp [hd]))
            (fun d hd => h2 d (by simp [hd])) hv')
      · exfalso
        have hbl2 : valBE l2 < 10 ^ l2.length :=
          valBE_lt_pow l2 (fun d hd => h2 d (by simp [hd]))
        simp only [valBE] at hv
        rw [hlen'] at hv
        have hchain : b * 10 ^ l2.length + valBE l2 < a * 10 ^ l2.length + valBE l1 :=
          calc b * 10 ^ l2.length + valBE l2
              < b * 10 ^ l2.length + 10 ^ l2.length := by omega
            _ = (b + 1) * 10 ^ l2.length := by ring
            _ ≤ a * 10 ^ l2.length := Nat.mul_le_mul_right _ (by omega)
            _ ≤ a * 10 ^ l2.length + valBE l1 := Nat.le_add_right _ _
        exact Nat.lt_irrefl _ (hv.trans hchain)

theorem map_digitChar_inj : ∀ l1 l2 : List Nat, (∀ d ∈ l1, d < 10) →
    (∀ d ∈ l2, d < 10) → l1.map Nat.digitChar = l2.map Nat.digitChar →
    l1 = l2 := by
  intro l1
  induction l1 with
  | nil =>
    intro l2 _ _ h
    cases l2 with
    | nil => rfl
    | cons b l2 => simp at h
  | cons a l1 ih =>
    intro l2 h1 h2 h
    cases l2 with
    | nil => simp at h
    | cons b l2 =>
      simp only [List.map_cons, List.cons.injEq] at h
      have ha : a < 10 := h1 a (by simp)
      have hb : b < 10 := h2 b (by simp)
      have := digitChar_inj ha hb h.1
      subst this
      rw [ih l2 (fun d hd => h1 d (by simp [hd]))
        (fun d hd => h2 d (by simp [hd])) h.2]

theorem format06d_eq_map (n : Nat) :
    format06d n = (zeroPadDigits n).map Nat.digitChar := by
  have h0 : Nat.digitChar 0 = '0' := rfl
  simp [format06d, zeroPadDigits, List.map_append, List.map_replicate, h0]

theorem valBE_replicate_zero : ∀ (k : Nat) (l : List Nat),
    valBE (List.replicate k 0 ++ l) = valBE l := by
  intro k
  induction k with
  | zero => intro l; simp
  | succ k ih =>
    intro l
    have hrep : List.replicate (k + 1) 0 ++ l = 0 :: (List.replicate k 0 ++ l) := by
      simp [List.replicate_succ]
    rw [hrep]
    show 0 * 10 ^ (List.replicate k 0 ++ l).length + valBE (List.replicate k 0 ++ l)
      = valBE l
    rw [ih]
    omega

theorem valBE_zeroPadDigits (n : Nat) : valBE (zeroPadDigits n) = n := by
  rw [zeroPadDigits, valBE_replicate_zero, valBE_decimal]

theorem zeroPadDigits_digits_lt (n : Nat) : ∀ d ∈ zeroPadDigits n, d < 10 := by
  intro d hd
  rcases List.mem_append.mp hd with hmem | hmem
  · have := List.eq_of_mem_replicate hmem
    omega
  · exact decimal_digits_lt n d hmem

theorem zeroPadDigits_length {n : Nat} (h : n < 10 ^ 6) :
    (zeroPadDigits n).length = 6 := by
  have hle : (decimal n).length ≤ 6 := decimal_length_le n 6 (by omega) h
  simp [zeroPadDigits, List.length_append, List.length_replicate]
  omega

theorem zeroPadDigits_inj {c1 c2 : Nat}
    (h : zeroPadDigits c1 = zeroPadDigits c2) : c1 = c2 := by
  have := congrArg valBE h
  rwa [valBE_zeroPadDigits, valBE_zeroPadDigits] at this

theorem format06d_lt {c1 c2 : Nat} (hc : c1 < c2) (h6 : c2 < 10 ^ 6) :
    List.Lex (· < ·) (format06d c1) (format06d c2) := by
  rw [format06d_eq_map, format06d_eq_map]
  apply lex_digits_of_val_lt
  · rw [zeroPadDigits_length (by omega), zeroPadDigits_length h6]
  · exact zeroPadDigits_digits_lt c1
  · exact zeroPadDigits_digits_lt c2
  · rwa [valBE_zeroPadDigits, valBE_zeroPadDigits]

theorem format06d_inj {c1 c2 : Nat}
    (h : format06d c1 = format06d c2) : c1 = c2 := by
  rw [format06d_eq_map, format06d_eq_map] at h
  exact zeroPadDigits_inj
    (map_digitChar_inj _ _ (zeroPadDigits_digits_lt c1) (zeroPadDigits_digits_lt c2) h)

/- ===== Lexicographic order on character lists ===== -/

theorem lex_append_of_lex : ∀ (l1 l2 : List Char), List.Lex (· < ·) l1 l2 →
    ∀ (t1 t2 : List Char), l1.length = l2.length →
    List.Lex (· < ·) (l1 ++ t1) (l2 ++ t2) := by
  intro l1 l2 h
  induction h with
  | nil => intro t1 t2 hlen; simp at hlen
  | rel hab => intro t1 t2 _; exact List.Lex.rel hab
  | cons h ih =>
    intro t1 t2 hlen
    exact List.Lex.cons (ih t1 t2 (by simpa using hlen))

theorem generate_request_id_data (nowFmt : String) (counter : Nat) :
    (generate_request_id nowFmt counter).data
      = ("REQ-".data ++ nowFmt.data ++ "-".data) ++ format06d counter := by
  simp [generate_request_id, String.data_append, List.append_assoc]

theorem generate_request_id_ne {ts1 ts2 : String} {c1 c2 : Nat}
    (h14a : ts1.data.length = 14) (h14b : ts2.data.length = 14)
    (hc : c1 ≠ c2) :
    generate_request_id ts1 c1 ≠ generate_request_id ts2 c2 := by
  intro h
  have hdata := congrArg String.data h
  rw [generate_request_id_data, generate_request_id_data] at hdata
  have hlen : ("REQ-".data ++ ts1.data ++ "-".data).length
      = ("REQ-".data ++ ts2.data ++ "-".data).length := by
    simp [List.length_append, h14a, h14b]
  exact hc (format06d_inj (List.append_inj hdata hlen).2)

theorem generate_request_id_lt {ts1 ts2 : String} {c1 c2 : Nat}
    (h14a : ts1.data.length = 14) (h14b : ts2.data.length = 14)
    (hts : ts1 < ts2 ∨ ts1 = ts2) (hc : c1 < c2) (h6 : c2 < 10 ^ 6) :
    generate_request_id ts1 c1 < generate_request_id ts2 c2 := by
  rw [String.lt_iff_toList_lt]
  show List.Lex (· < ·) (generate_request_id ts1 c1).data
    (generate_request_id ts2 c2).data
  rw [generate_request_id_data, generate_request_id_data]
  rcases hts with hlt | rfl
  · have hl : List.Lex (· < ·) ts1.data ts2.data := String.lt_iff_toList_lt.mp hlt
    simp only [List.append_assoc]
    exact List.Lex.append_left (· < ·)
      (lex_append_of_lex ts1.data ts2.data hl _ _ (by rw [h14a, h14b])) "REQ-".data
  · exact List.Lex.append_left (· < ·) (format06d_lt hc h6) _

/-- Counterexample to claim C6 as stated: with the same 14-character
timestamp, the identifier generated at counter value 1000000 is
lexicographically smaller than the one generated at counter value 999999,
because the seventh digit makes the zero-padded field wider and the
comparison sees the character one before the character nine.  So across
"any number" of execute calls the identifiers are not lexicographically
increasing. -/
theorem claim_C6_counterexample :
    ¬ (generate_request_id "20260101000000" 999999
        < generate_request_id "20260101000000" 1000000)
    ∧ generate_request_id "20260101000000" 1000000
        < generate_request_id "20260101000000" 999999 := by
  constructor
  · intro h
    exact absurd (String.lt_iff_toList_lt.mp h) (by decide)
  · rw [String.lt_iff_toList_lt]
    decide

/-- Claim C6 as amended: request identifiers generated with fixed-width
(14-character) timestamps are pairwise distinct for any two distinct
counter values; and they are lexicographically strictly increasing in
generation order provided the formatted timestamps are nondecreasing (the
wall clock is not set back) and the later counter value stays below
1000000, the capacity of the six-digit zero-padded field. -/
theorem claim_C6_amended_request_ids (ts1 ts2 : String) (c1 c2 : Nat)
    (h14a : ts1.data.length = 14) (h14b : ts2.data.length = 14) :
    (c1 ≠ c2 → generate_request_id ts1 c1 ≠ generate_request_id ts2 c2)
    ∧ ((ts1 < ts2 ∨ ts1 = ts2) → c1 < c2 → c2 < 10 ^ 6 →
        generate_request_id ts1 c1 < generate_request_id ts2 c2) :=
  ⟨fun hc => generate_request_id_ne h14a h14b hc,
   fun hts hc h6 => generate_request_id_lt h14a h14b hts hc h6⟩

/-- Witness for the amended claim C6 at two concrete consecutive counter
values under one concrete timestamp. -/
theorem claim_C6_amended_request_ids_witness :
    generate_request_id "20260101000000" 1 ≠ generate_request_id "20260101000000" 2
    ∧ generate_request_id "20260101000000" 1 < generate_request_id "20260101000000" 2 :=
  ⟨(claim_C6_amended_request_ids "20260101000000" "20260101000000" 1 2
      (by decide) (by decide)).1 (by decide),
   (claim_C6_amended_request_ids "20260101000000" "20260101000000" 1 2
      (by decide) (by decide)).2 (Or.inr rfl) (by decide) (by decide)⟩

theorem sliceLast_suffix {α : Type} (k : Nat) (l : List α) : sliceLast k l <:+ l := by
  unfold sliceLast
  split
  · exact List.suffix_refl l
  · exact List.drop_suffix _ _

theorem sliceLast_length_of_pos {α : Type} {k : Nat} (hk : 1 ≤ k) (l : List α) :
    (sliceLast k l).length = min k l.length := by
  unfold sliceLast
  rw [if_neg (by omega), List.length_drop]
  omega

theorem sliceLast_of_le {α : Type} {k : Nat} {l : List α} (h : l.length ≤ k) :
    sliceLast k l = l := by
  unfold sliceLast
  split
  · rfl
  · rw [Nat.sub_eq_zero_of_le h, List.drop_zero]

/-- Claim C4: a payload dispatched to the execute path has its "command"
field equal to "execute", and `handle_execute` reads the evaluation target
from that same field, so the target is always the literal string
"execute"; in particular, for every payload built by the client library
(whose actual command string travels under "cmd") the target reaching the
policy engine is the constant "execute", never the client's command. -/
theorem claim_C4_execute_target_is_dispatch_key (st : CoreState)
    (nowFmt now : String) (p : IPCPayload)
    (hdispatch : p.command = some "execute") :
    process_request st nowFmt now p = handle_execute st nowFmt now p
    ∧ (built_request st.request_counter nowFmt now p).target = "execute"
    ∧ ∀ c args pid uid,
        (built_request st.request_counter nowFmt now
          (client_execute_payload c args pid uid)).target = "execute" := by
  refine ⟨?_, ?_, ?_⟩
  · simp [process_request, hdispatch]
  · simp [built_request, hdispatch]
  · intro c args pid uid
    simp [built_request, client_execute_payload]

/-- Witness for claim C4 at a concrete client payload. -/
theorem claim_C4_execute_target_is_dispatch_key_witness :
    payload_ls.command = some "execute"
    ∧ (built_request st0.request_counter "20260101000000" "t0" payload_ls).target
        = "execute" :=
  ⟨rfl,
   (claim_C4_execute_target_is_dispatch_key st0 "20260101000000" "t0"
      payload_ls rfl).2.1⟩

/-- Claim C5: for every execute call, the response's `allowed` boolean is
true exactly when the decision is allow or audit and false exactly when it
is deny or sandbox. -/
theorem claim_C5_allowed_iff_allow_or_audit (st : CoreState)
    (nowFmt now : String) (p : IPCPayload) :
    ((execute_response st nowFmt now p).allowed = true
      ↔ ((execute_response st nowFmt now p).decision = "allow"
          ∨ (execute_response st nowFmt now p).decision = "audit"))
    ∧ ((execute_response st nowFmt now p).allowed = false
      ↔ ((execute_response st nowFmt now p).decision = "deny"
          ∨ (execute_response st nowFmt now p).decision = "sandbox")) := by
  cases hd : (evaluate (built_request st.request_counter nowFmt now p)).decision <;>
    simp [execute_response, hd, Decision.value]

/-- Witness for claim C5 at a concrete state and payload. -/
theorem claim_C5_allowed_iff_allow_or_audit_witness :
    (execute_response st0 "20260101000000" "t0" payload_ls).allowed = true
      ↔ ((execute_response st0 "20260101000000" "t0" payload_ls).decision = "allow"
          ∨ (execute_response st0 "20260101000000" "t0" payload_ls).decision
              = "audit") :=
  (claim_C5_allowed_iff_allow_or_audit st0 "20260101000000" "t0" payload_ls).1

/-- Helper: a run of execute-only requests grows the audit sequence by
exactly one entry per call and preserves the old entries as a prefix. -/
theorem run_requests_execute_growth :
    ∀ (calls : List (String × String × IPCPayload)) (st : CoreState),
    (∀ c ∈ calls, (c.2.2 : IPCPayload).command = some "execute") →
    (run_requests st calls).entries.length = st.entries.length + calls.length
    ∧ st.entries <+: (run_requests st calls).entries := by
  intro calls
  induction calls with
  | nil =>
    intro st _
    exact ⟨by simp [run_requests], List.prefix_refl _⟩
  | cons c rest ih =>
    intro st hall
    have hc : (c.2.2 : IPCPayload).command = some "execute" := hall c (by simp)
    have hstep : (process_request st c.1 c.2.1 c.2.2).2.entries
        = st.entries ++ [executed_entry st c.1 c.2.1 c.2.2] := by
      simp [process_request, hc, handle_execute]
    obtain ⟨hlen, hpre⟩ := ih (process_request st c.1 c.2.1 c.2.2).2
      (fun x hx => hall x (by simp [hx]))
    constructor
    · show (run_requests (process_request st c.1 c.2.1 c.2.2).2 rest).entries.length
        = st.entries.length + (c :: rest).length
      rw [hlen, hstep]
      simp
      omega
    · show st.entries <+: (run_requests (process_request st c.1 c.2.1 c.2.2).2 rest).entries
      refine List.IsPrefix.trans ?_ hpre
      rw [hstep]
      exact List.prefix_append _ _

/-- Claim C7: the in-memory audit sequence is strictly append-only.  An
execute request appends exactly the one new entry at the end (so existing
entries are never removed, reordered, or altered); every other command
leaves the state unchanged; `query` is a pure function of the entries (the
embedding gives it no way to mutate) and with no filters returns a suffix
of the entries — the most recent ones in original arrival order, the whole
sequence when the limit covers it; and any run of N execute calls grows
the sequence by exactly N with the old entries as an unchanged prefix. -/
theorem claim_C7_audit_append_only (st : CoreState) (nowFmt now : String)
    (p : IPCPayload) (calls : List (String × String × IPCPayload)) (k : Nat) :
    (p.command = some "execute" →
      (process_request st nowFmt now p).2.entries
        = st.entries ++ [executed_entry st nowFmt now p])
    ∧ (p.command ≠ some "execute" → (process_request st nowFmt now p).2 = st)
    ∧ ((∀ c ∈ calls, (c.2.2 : IPCPayload).command = some "execute") →
      (run_requests st calls).entries.length = st.entries.length + calls.length
      ∧ st.entries <+: (run_requests st calls).entries)
    ∧ query none none k st.entries <:+ st.entries
    ∧ (st.entries.length ≤ k → query none none k st.entries = st.entries) := by
  refine ⟨?_, ?_, ?_, ?_, ?_⟩
  · intro h
    simp [process_request, h, handle_execute]
  · intro hne
    unfold process_request
    split
    · rename_i heq
      exact absurd heq hne
    · rfl
    · rfl
    · rfl
    · rfl
  · exact run_requests_execute_growth calls st
  · exact sliceLast_suffix k _
  · intro hle
    exact sliceLast_of_le hle

/-- Witness for claim C7 at a concrete state and payload. -/
theorem claim_C7_audit_append_only_witness :
    (process_request st0 "20260101000000" "t0" payload_ls).2.entries
      = st0.entries ++ [executed_entry st0 "20260101000000" "t0" payload_ls]
    ∧ (run_requests st0 [("20260101000000", "t0", payload_ls)]).entries.length
        = st0.entries.length + 1
    ∧ query none none 5 st0.entries = st0.entries :=
  ⟨(claim_C7_audit_append_only st0 "20260101000000" "t0" payload_ls [] 5).1 rfl,
   ((claim_C7_audit_append_only st0 "20260101000000" "t0" payload_ls
      [("20260101000000", "t0", payload_ls)] 5).2.2.1 (by decide)).1,
   (claim_C7_audit_append_only st0 "20260101000000" "t0" payload_ls [] 5).2.2.2.2
     (by decide)⟩

/-- Counterexample to claim C8 as stated: `limit = 0` is a non-negative
integer, but the Python slice `results[-0:]` is `results[0:]`, the whole
list, so `query` returns one entry from a one-entry log where the claim
demands at most zero. -/
theorem claim_C8_counterexample :
    ¬ (query none none 0 [entry0]).length ≤ 0 := by
  decide

/-- Claim C8 as amended: for every positive limit `k`, `query` returns at
most `k` entries — exactly the `min k` most recently logged ones among
those matching all provided filters (conjunctive, omitted filters matching
everything), as a suffix of the filtered sequence, newest last; and every
returned entry matches each provided filter.  For `k = 0` the source
returns all matching entries instead. -/
theorem claim_C8_amended_query_limit (entries : List AuditEntry)
    (a : Option ActionType) (d : Option Decision) (k : Nat) (hk : 1 ≤ k) :
    (query a d k entries).length ≤ k
    ∧ (query a d k entries).length = min k (query_filtered a d entries).length
    ∧ query a d k entries <:+ query_filtered a d entries
    ∧ ∀ e ∈ query a d k entries,
        (∀ x, a = some x → e.request.action_type = x)
        ∧ (∀ x, d = some x → e.response.decision = x) := by
  refine ⟨?_, ?_, ?_, ?_⟩
  · show (sliceLast k (query_filtered a d entries)).length ≤ k
    rw [sliceLast_length_of_pos hk]
    omega
  · exact sliceLast_length_of_pos hk _
  · exact sliceLast_suffix k _
  · intro e he
    have hm : e ∈ query_filtered a d entries :=
      (sliceLast_suffix k (query_filtered a d entries)).subset he
    constructor
    · intro x hx
      subst hx
      rcases d with _ | dv
      · simp only [query_filtered] at hm
        exact beq_iff_eq.mp (List.mem_filter.mp hm).2
      · simp only [query_filtered] at hm
        have := (List.mem_filter.mp hm).1
        exact beq_iff_eq.mp (List.mem_filter.mp this).2
    · intro x hx
      subst hx
      rcases a with _ | av
      · simp only [query_filtered] at hm
        exact beq_iff_eq.mp (List.mem_filter.mp hm).2
      · simp only [query_filtered] at hm
        exact beq_iff_eq.mp (List.mem_filter.mp hm).2

/-- Witness for the amended claim C8 at a concrete log and limit. -/
theorem claim_C8_amended_query_limit_witness :
    (query none (some Decision.deny) 1 [entry0, entry0]).length ≤ 1
    ∧ query none (some Decision.deny) 1 [entry0, entry0]
        <:+ query_filtered none (some Decision.deny) [entry0, entry0] :=
  ⟨(claim_C8_amended_query_limit [entry0, entry0] none (some Decision.deny) 1
      (by decide)).1,
   (claim_C8_amended_query_limit [entry0, entry0] none (some Decision.deny) 1
      (by decide)).2.2.1⟩

/-- Counterexample to claim C9 as stated: when the log file cannot be
opened for append, `log` does not return normally — there is no handler in
`log`, so the exception component is set (it propagates to the caller;
only `handle_client`'s catch-all sees it, and that tears down the whole
connection). -/
theorem claim_C9_counterexample :
    (log false [] entry0).2 ≠ none := by
  decide

/-- Claim C9 as amended: `log` always performs the in-memory append (the
append precedes the file write in the source), but a failing file
open/write raises to the caller instead of returning normally: the call
returns without an exception exactly when the file is writable. -/
theorem claim_C9_amended_log_raises (file_writable : Bool)
    (entries : List AuditEntry) (e : AuditEntry) :
    (log file_writable entries e).1 = entries ++ [e]
    ∧ ((log file_writable entries e).2 = none ↔ file_writable = true) := by
  constructor
  · rfl
  · cases file_writable <;> simp [log]

/-- Witness for the amended claim C9 at a concrete unwritable-file call. -/
theorem claim_C9_amended_log_raises_witness :
    (log false [] entry0).1 = [] ++ [entry0]
    ∧ ((log false [] entry0).2 = none ↔ false = true) :=
  claim_C9_amended_log_raises false [] entry0

/-- Counterexample to claim C10 as stated: a payload with command "audit"
and limit 1 sent against a two-entry log gets both entries back — the
dispatcher calls `query(limit=50)` and never reads the payload's limit
field. -/
theorem claim_C10_counterexample :
    ¬ (audit_entries_of
        (process_request st2 "20260101000000" "t0" audit_payload_limit1).1).length
      ≤ 1 := by
  decide

/-- Claim C10 as amended: for every IPC request with command "audit", the
response carries the up-to-50 most recent audit entries — a suffix of the
sequence of at most 50 entries — and the payload's limit field is ignored:
the default 50 is used unconditionally. -/
theorem claim_C10_amended_audit_uses_default_50 (st : CoreState)
    (nowFmt now : String) (p : IPCPayload) (h : p.command = some "audit") :
    (process_request st nowFmt now p).1
      = IPCResponse.auditEntries (query none none 50 st.entries)
    ∧ (audit_entries_of (process_request st nowFmt now p).1).length ≤ 50
    ∧ audit_entries_of (process_request st nowFmt now p).1 <:+ st.entries := by
  have h1 : (process_request st nowFmt now p).1
      = IPCResponse.auditEntries (query none none 50 st.entries) := by
    simp [process_request, h]
  refine ⟨h1, ?_, ?_⟩
  · rw [h1]
    show (sliceLast 50 (query_filtered none none st.entries)).length ≤ 50
    rw [sliceLast_length_of_pos (by omega)]
    omega
  · rw [h1]
    exact sliceLast_suffix 50 _

/-- Witness for the amended claim C10 at a concrete state and payload. -/
theorem claim_C10_amended_audit_uses_default_50_witness :
    (process_request st2 "20260101000000" "t0" audit_payload_limit1).1
      = IPCResponse.auditEntries (query none none 50 st2.entries)
    ∧ (audit_entries_of
        (process_request st2 "20260101000000" "t0" audit_payload_limit1).1).length
      ≤ 50 :=
  ⟨(claim_C10_amended_audit_uses_default_50 st2 "20260101000000" "t0"
      audit_payload_limit1 rfl).1,
   (claim_C10_amended_audit_uses_default_50 st2 "20260101000000" "t0"
      audit_payload_limit1 rfl).2.1⟩
